import Mathlib

/-!
Verification development for the AI-coach request pipeline of the
real-estate-business-dashboard repository.

The embedding models the POST handler of the AI-coach API route together
with `runSupabaseQuery` (the raw-SQL query executor).  External
collaborators (the identity provider, the Gemini generation API, the

PostgreSQL pool, the response cache) are modelled as oracle fields of an
`Env` record; the handler itself is translated statement by statement into
pure Lean functions.  A `Trace` records the observable calls the handler
makes (cache lookups, generation calls, the SQL strings passed to the
query executor, cache writes), so that reachability claims can be stated
as properties of the trace.
-/

set_option maxRecDepth 10000

namespace Coach

/-- ASCII lower-casing of a character list; models `String.prototype.toLowerCase`
on the ASCII strings handled by the route. -/
def lowerL (l : List Char) : List Char := l.map Char.toLower

/-- Lower-case a string (models `s.toLowerCase()`). -/
def lowerStr (s : String) : String := ⟨lowerL s.data⟩

/-- Substring containment on character lists. -/
def listContainsSub (pat s : List Char) : Bool :=
  (List.range (s.length + 1)).any fun i => pat.isPrefixOf (s.drop i)

/-- Models JavaScript `s.includes(pat)` (case-sensitive substring test). -/
def strIncludes (s pat : String) : Bool := listContainsSub pat.data s.data

/-- The whitespace characters recognised for the `\s` regex class. -/
def isWsChar (c : Char) : Bool := c = ' ' || c = '\t' || c = '\n' || c = '\r'

/-- The word characters of the `\w` regex class. -/
def isWordChar (c : Char) : Bool := c.isAlphanum || c = '_'

/-- Case-insensitive literal prefix test. -/
def ciPrefix (pat l : List Char) : Bool := pat.isPrefixOf (lowerL l)

/-- Try to match `FROM\s+(\w+)` at the head of `l` (case-insensitive);
returns the captured table name and the remainder after the match. -/
def matchFromAt (l : List Char) : Option (List Char × List Char) :=
  if ciPrefix "from".data l then
    let r1 := l.drop 4
    let ws := r1.takeWhile isWsChar
    if ws.isEmpty then none
    else
      let r2 := r1.drop ws.length
      let tbl := r2.takeWhile isWordChar
      if tbl.isEmpty then none
      else some (tbl, r2.drop tbl.length)
  else none

/-- Locate the first (leftmost) match of `FROM\s+(\w+)`: returns the prefix
before the match, the captured table name, and the remainder. -/
def fromSplit : List Char → Option (List Char × List Char × List Char)
  | [] => none
  | c :: cs =>
    match matchFromAt (c :: cs) with
    | some (tbl, rest) => some ([], tbl, rest)
    | none =>
      match fromSplit cs with
      | some (pre, tbl, rest) => some (c :: pre, tbl, rest)
      | none => none

/-- Models `sqlQuery.replace(/FROM\s+(\w+)/i, "FROM $1 WHERE user_id = '<uid>'")`:
replace the first match, or return the input unchanged when there is none. -/
def replaceFromFirst (uid : String) (l : List Char) : List Char :=
  match fromSplit l with
  | some (pre, tbl, rest) =>
      pre ++ "FROM ".data ++ tbl ++ (" WHERE user_id = '" ++ uid ++ "'").data ++ rest
  | none => l

/-- Try to match `WHERE\s+` at the head of `l` (case-insensitive); returns the
remainder after the matched span. -/
def matchWhereAt (l : List Char) : Option (List Char) :=
  if ciPrefix "where".data l then
    let r1 := l.drop 5
    let ws := r1.takeWhile isWsChar
    if ws.isEmpty then none else some (r1.drop ws.length)
  else none

/-- Locate the first match of `WHERE\s+`: prefix before the match and the
remainder after the matched span. -/
def whereSplit : List Char → Option (List Char × List Char)
  | [] => none
  | c :: cs =>
    match matchWhereAt (c :: cs) with
    | some rest => some ([], rest)
    | none =>
      match whereSplit cs with
      | some (pre, rest) => some (c :: pre, rest)
      | none => none

/-- Models `sqlQuery.replace(/WHERE\s+/i, "WHERE user_id = '<uid>' AND ")`. -/
def replaceWhereFirst (uid : String) (l : List Char) : List Char :=
  match whereSplit l with
  | some (pre, rest) =>
      pre ++ ("WHERE user_id = '" ++ uid ++ "' AND ").data ++ rest
  | none => l

/-- The orchestrator's post-processing safety net for the primary SQL text
(the block commented "Ensure user_id filter is present for security"):
if the text mentions neither `user_id` nor `where`, and looks like a SELECT,
inject a `WHERE user_id = ...` after the first `FROM <table>`; if it has a
`WHERE` but not the exact `user_id = '<uid>'` text, conjoin the predicate
onto the first `WHERE`. -/
def ensureUserIdFilter (uid : String) (q : String) : String :=
  let lq := lowerStr q
  if !strIncludes lq "user_id" && !strIncludes lq "where" then
    if strIncludes lq "select" then ⟨replaceFromFirst uid q.data⟩ else q
  else if strIncludes lq "where" && !strIncludes lq ("user_id = '" ++ uid ++ "'") then
    ⟨replaceWhereFirst uid q.data⟩
  else q

/-! ### JSON values and a model of `JSON.parse`

The route expects the model to return a small JSON envelope
`{"sql_query": ...}`.  We embed a JSON value type and a recursive-descent
parser covering the shapes that occur here (objects, arrays, strings with
the common escapes, integer numbers, `true`/`false`/`null`). -/

/-- JSON values. -/
inductive Json where
  | null : Json
  | boolean (b : Bool) : Json
  | num (n : Int) : Json
  | str (s : String) : Json
  | arr (xs : List Json) : Json
  | obj (fields : List (String × Json)) : Json

/-- Skip JSON whitespace. -/
def skipWsL : List Char → List Char
  | [] => []
  | c :: cs => if isWsChar c then skipWsL cs else c :: cs

/-- Parse the body of a JSON string literal (after the opening quote),
handling the standard single-character escapes. -/
def parseStrChars : Nat → List Char → Option (List Char × List Char)
  | 0, _ => none
  | _, [] => none
  | Nat.succ f, c :: rest =>
    if c = '"' then some ([], rest)
    else if c = '\\' then
      match rest with
      | [] => none
      | e :: r =>
        let esc : Option Char :=
          if e = 'n' then some '\n'
          else if e = 't' then some '\t'
          else if e = 'r' then some '\r'
          else if e = 'b' then some (Char.ofNat 8)
          else if e = 'f' then some (Char.ofNat 12)
          else if e = '"' then some '"'
          else if e = '\\' then some '\\'
          else if e = '/' then some '/'
          else none
        match esc with
        | none => none
        | some ch =>
          match parseStrChars f r with
          | some (s, t) => some (ch :: s, t)
          | none => none
    else
      match parseStrChars f rest with
      | some (s, t) => some (c :: s, t)
      | none => none

/-- Parse an (optionally signed) integer literal. -/
def parseIntL (l : List Char) : Option (Int × List Char) :=
  let (neg, l') := match l with
    | '-' :: r => (true, r)
    | _ => (false, l)
  let ds := l'.takeWhile Char.isDigit
  if ds.isEmpty then none
  else
    let n : Nat := ds.foldl (fun acc c => acc * 10 + (c.toNat - 48)) 0
    some (if neg then -(n : Int) else (n : Int), l'.drop ds.length)

mutual

/-- Parse one JSON value. -/
def parseVal : Nat → List Char → Option (Json × List Char)
  | 0, _ => none
  | Nat.succ f, l =>
    match skipWsL l with
    | [] => none
    | c :: rest =>
      if c = '"' then
        match parseStrChars (rest.length + 1) rest with
        | some (s, t) => some (.str ⟨s⟩, t)
        | none => none
      else if c = Char.ofNat 123 then
        match skipWsL rest with
        | c2 :: r2 =>
          if c2 = Char.ofNat 125 then some (.obj [], r2)
          else
            match parseMembers f (c2 :: r2) with
            | some (fs, t) => some (.obj fs, t)
            | none => none
        | [] => none
      else if c = '[' then
        match skipWsL rest with
        | c2 :: r2 =>
          if c2 = ']' then some (.arr [], r2)
          else
            match parseElems f (c2 :: r2) with
            | some (xs, t) => some (.arr xs, t)
            | none => none
        | [] => none
      else if "true".data.isPrefixOf (c :: rest) then
        some (.boolean true, (c :: rest).drop 4)
      else if "false".data.isPrefixOf (c :: rest) then
        some (.boolean false, (c :: rest).drop 5)
      else if "null".data.isPrefixOf (c :: rest) then
        some (.null, (c :: rest).drop 4)
      else if c = '-' || c.isDigit then
        match parseIntL (c :: rest) with
        | some (n, t) => some (.num n, t)
        | none => none
      else none

/-- Parse one or more `"key": value` members followed by `}`. -/
def parseMembers : Nat → List Char → Option (List (String × Json) × List Char)
  | 0, _ => none
  | Nat.succ f, l =>
    match skipWsL l with
    | c :: rest =>
      if c = '"' then
        match parseStrChars (rest.length + 1) rest with
        | some (k, r1) =>
          match skipWsL r1 with
          | ':' :: r2 =>
            match parseVal f r2 with
            | some (v, r3) =>
              match skipWsL r3 with
              | ',' :: r4 =>
                match parseMembers f r4 with
                | some (fs, t) => some ((⟨k⟩, v) :: fs, t)
                | none => none
              | c5 :: r5 =>
                if c5 = Char.ofNat 125 then some ([(⟨k⟩, v)], r5) else none
              | [] => none
            | none => none
          | _ => none
        | none => none
      else none
    | [] => none

/-- Parse one or more array elements followed by `]`. -/
def parseElems : Nat → List Char → Option (List Json × List Char)
  | 0, _ => none
  | Nat.succ f, l =>
    match parseVal f l with
    | some (v, r1) =>
      match skipWsL r1 with
      | ',' :: r2 =>
        match parseElems f r2 with
        | some (xs, t) => some (v :: xs, t)
        | none => none
      | ']' :: r3 => some ([v], r3)
      | _ => none
    | none => none

end

/-- Models `JSON.parse`: the whole input (up to trailing whitespace) must be
one JSON value, otherwise parsing throws (here: `none`). -/
def jsonParse (s : String) : Option Json :=
  match parseVal (s.length + 1) s.data with
  | some (j, rest) => if (skipWsL rest).isEmpty then some j else none
  | none => none

/-- Field lookup on a parsed value (JavaScript member access; on duplicate
keys `JSON.parse` keeps the last occurrence). -/
def jsGetField : Json → String → Option Json
  | .obj fs, k => ((fs.reverse).find? fun p => p.1 = k).map Prod.snd
  | _, _ => none

/-- JavaScript truthiness of a JSON value. -/
def jsonTruthy : Json → Bool
  | .null => false
  | .boolean b => b
  | .num n => n != 0
  | .str s => s != ""
  | .arr _ => true
  | .obj _ => true

/-- Stand-in rendering for the corner where the `sql_query` field holds a
truthy non-string value (the route would carry the raw value onward); no
verified property depends on this corner. -/
def jsToStringVal : Json → String
  | .str s => s
  | .num n => toString n
  | .boolean b => if b then "true" else "false"
  | .null => "null"
  | .arr _ => "[array]"
  | .obj _ => "[object Object]"

/-- Truthy field access used by `parsed.sql_query || parsed.sql || ...`. -/
def truthyField (j : Json) (k : String) : Option Json :=
  match jsGetField j k with
  | some v => if jsonTruthy v then some v else none
  | none => none

/-! ### Response-text post-processing (markdown stripping, envelope match) -/

/-- Does `pat` occur at index `i` of `l`? -/
def occursAtB (pat l : List Char) (i : Nat) : Bool := pat.isPrefixOf (l.drop i)

/-- Character of `l` at index `i`, if any. -/
def charAt (l : List Char) (i : Nat) : Option Char := (l.drop i).head?

/-- Models `s.match(/\{[\s\S]*"sql_query"[\s\S]*\}/)` and taking the full
match: leftmost starting `{`, then (by greediness) the last `"sql_query"`
occurrence after it that still leaves a closing `}`, and the last such `}`. -/
def envelopeMatch (s : String) : Option String :=
  let l := s.data
  let n := l.length
  let pat := "\"sql_query\"".data
  let isOpen : Nat → Bool := fun i => charAt l i = some (Char.ofNat 123)
  let isClose : Nat → Bool := fun k => charAt l k = some (Char.ofNat 125)
  let jOk : Nat → Bool := fun j =>
    occursAtB pat l j && (List.range n).any fun k => decide (j + pat.length ≤ k) && isClose k
  let iOk : Nat → Bool := fun i =>
    isOpen i && (List.range n).any fun j => decide (i + 1 ≤ j) && jOk j
  match (List.range n).find? iOk with
  | none => none
  | some i =>
    match ((List.range n).filter fun j => decide (i + 1 ≤ j) && jOk j).getLast? with
    | none => none
    | some j =>
      match ((List.range n).filter fun k => decide (j + pat.length ≤ k) && isClose k).getLast? with
      | none => none
      | some k => some ⟨(l.drop i).take (k + 1 - i)⟩

/-- Remove every occurrence of `tok` together with one directly following
newline, scanning left to right without rescanning removed spans; models one
global `replace(/<tok>\n?/g, '')` pass. -/
def stripFenceTok (tok : List Char) : Nat → List Char → List Char
  | 0, l => l
  | Nat.succ _, [] => []
  | Nat.succ f, c :: cs =>
    if tok ≠ [] ∧ tok.isPrefixOf (c :: cs) then
      match (c :: cs).drop tok.length with
      | '\n' :: r => stripFenceTok tok f r
      | r => stripFenceTok tok f r
    else c :: stripFenceTok tok f cs

/-- The three markdown-fence strip passes applied to raw model output:
first ```sql, then ```json, then bare ``` fences. -/
def stripAllFences (s : String) : String :=
  let l1 := stripFenceTok "```sql".data (s.data.length + 1) s.data
  let l2 := stripFenceTok "```json".data (l1.length + 1) l1
  ⟨stripFenceTok "```".data (l2.length + 1) l2⟩

/-- Models `String.prototype.trim` on the whitespace handled here. -/
def jsTrim (s : String) : String :=
  ⟨((s.data.dropWhile isWsChar).reverse.dropWhile isWsChar).reverse⟩

/-- Try to match `"sql_query"\s*:\s*"([^"]+)"` at the head of `l`,
returning the capture group. -/
def captureSqlAt (l : List Char) : Option (List Char) :=
  let pat := "\"sql_query\"".data
  if pat.isPrefixOf l then
    match skipWsL (l.drop pat.length) with
    | ':' :: r2 =>
      match skipWsL r2 with
      | '"' :: r3 =>
        let cap := r3.takeWhile (· ≠ '"')
        if cap.isEmpty then none
        else
          match r3.drop cap.length with
          | '"' :: _ => some cap
          | _ => none
      | _ => none
    | _ => none
  else none

/-- Models `q.match(/"sql_query"\s*:\s*"([^"]+)"/)`: scan for the first
position where the pattern matches and return the capture group. -/
def sqlQueryCapture (s : String) : Option String :=
  go (s.data.length + 1) s.data
where
  go : Nat → List Char → Option String
    | 0, _ => none
    | _, [] => none
    | Nat.succ f, c :: cs =>
      match captureSqlAt (c :: cs) with
      | some cap => some ⟨cap⟩
      | none => go f cs

/-- Models `captured.replace(/\\n/g, ' ')`: every literal backslash-n pair
becomes a space. -/
def replaceEscNL (s : String) : String := ⟨go (s.data.length + 1) s.data⟩
where
  go : Nat → List Char → List Char
    | 0, l => l
    | _, [] => []
    | Nat.succ f, c :: cs =>
      if c = '\\' then
        match cs with
        | 'n' :: r => ' ' :: go f r
        | _ => c :: go f cs
      else c :: go f cs

/-- Extraction of the primary SQL text from the raw generation response
(the "Parse JSON response to extract SQL" block): attempt strict JSON
extraction of the envelope; on parse failure strip markdown fences, trim,
and regex-extract the `sql_query` value if present. -/
def extractPrimarySql (resp : String) : String :=
  let jsonStr := (envelopeMatch resp).getD resp
  match jsonParse jsonStr with
  | some parsed =>
    match truthyField parsed "sql_query" with
    | some v => jsToStringVal v
    | none =>
      match truthyField parsed "sql" with
      | some v => jsToStringVal v
      | none => jsTrim resp
  | none =>
    let q := jsTrim (stripAllFences resp)
    match sqlQueryCapture q with
    | some cap => replaceEscNL cap
    | none => q

/-- Extraction of the auxiliary (page-context) SQL text: same envelope/JSON
attempt, but the fallback only strips fences and trims (no regex capture). -/
def extractAuxSql (resp : String) : String :=
  let jsonStr := (envelopeMatch resp).getD resp
  match jsonParse jsonStr with
  | some parsed =>
    match truthyField parsed "sql_query" with
    | some v => jsToStringVal v
    | none =>
      match truthyField parsed "sql" with
      | some v => jsToStringVal v
      | none => jsTrim resp
  | none => jsTrim (stripAllFences resp)

/-! ### Request data model and external-collaborator environment -/

/-- A JavaScript-ish value, for the loosely typed request-body fields. -/
inductive JsVal where
  | undef : JsVal
  | null : JsVal
  | boolean (b : Bool) : JsVal
  | num (n : Int) : JsVal
  | str (s : String) : JsVal
deriving DecidableEq, Repr

/-- JavaScript truthiness. -/
def JsVal.truthy : JsVal → Bool
  | .undef => false
  | .null => false
  | .boolean b => b
  | .num n => n != 0
  | .str s => s != ""

/-- `typeof v === "string"`. -/
def JsVal.isString : JsVal → Bool
  | .str _ => true
  | _ => false

/-- The string carried by a string value (only used after `isString`). -/
def JsVal.asStr : JsVal → String
  | .str s => s
  | _ => ""

/-- The parsed request body.  `pageContext` is modelled as a string or
absent (absent covers both a missing field and `null`); `pageData`, used
only rendered into the prompt, is carried as its rendered JSON text. -/
structure Body where
  message : JsVal := .undef
  stream : JsVal := .undef
  pageContext : Option String := none
  pageData : Option String := none
deriving DecidableEq, Repr

/-- `stream: useStreaming = true` destructuring: the default applies only
when the field is undefined; truthiness of the resulting value. -/
def useStreamingOf (b : Body) : Bool :=
  (match b.stream with
   | .undef => JsVal.boolean true
   | v => v).truthy

/-- A cache entry as returned by `getCachedResponse` (the cache module is
an external collaborator here; TTL handling is internal to it). -/
structure CacheEntry where
  response : String
  sqlQuery : Option String := none
  resultCount : Option Nat := none
deriving DecidableEq, Repr

/-- A result row (key to rendered-scalar mapping). -/
abbrev Row := List (String × String)

/-- Events observed while consuming the streaming generation channel:
a chunk whose `text()` succeeds, a chunk whose `text()` throws (caught by
the inner handler, iteration continues), or the iterator itself throwing
(caught by the outer handler, iteration stops). -/
inductive ChunkEvent where
  | text (s : String) : ChunkEvent
  | textError : ChunkEvent
  | iterError (msg : String) : ChunkEvent
deriving DecidableEq, Repr

/-- The external world of one request: identity, configuration, the parsed
body (or the exception from `request.json()`), the cache's answer, the
model-discovery result, and the generation / database oracles.  Generation
oracles take the model name and the prompt; errors carry the message text
(`error.message`). -/
structure Env where
  user? : Option String
  geminiApiKey? : Option String
  databaseUrl? : Option String := none
  supabaseDbUrl? : Option String := none
  nodeEnv : String := "production"
  bodyResult : Except String Body
  cached? : Option CacheEntry := none
  availableModel? : Option String := none
  dbSchema : String := ""
  systemPrompt : String := ""
  genContent : String → String → Except String String
  genContentStream : String → String → Except String (List ChunkEvent)
  dbQuery : String → Except String (List Row)

/-- A cache write performed via `setCachedResponse`. -/
structure CacheWrite where
  userId : String
  message : String
  response : String
  sqlQuery : Option String
  resultCount : Nat
deriving DecidableEq, Repr

/-- Observable calls made while handling one request. -/
structure Trace where
  cacheLookups : Nat := 0
  genCalls : Nat := 0
  primaryExecCalls : List String := []
  auxExecCalls : List String := []
  cacheWrites : List CacheWrite := []
deriving DecidableEq, Repr

/-- The metadata block of a buffered success response. -/
structure DataInfo where
  sqlQuery : String
  resultCount : Nat
  hasData : Bool
  sampleData : Option (List Row)
deriving DecidableEq, Repr

/-- The HTTP-level outcome: a JSON error, a buffered JSON success
(`debug` is the development-only block of the cached-hit response), or a
streamed body (ordered fragments plus the number of times the client
channel was closed). -/
inductive ApiResult where
  | jsonError (status : Nat) (error : String) : ApiResult
  | jsonOk (reply : String) (cached : Bool) (debug : Option (String × Nat))
      (dataInfo : Option DataInfo) : ApiResult
  | streamBody (fragments : List String) (closes : Nat) : ApiResult
deriving DecidableEq, Repr

/-! ### The query executor (`runSupabaseQuery`, src: database utility) -/

/-- The error text thrown when neither database URL is configured. -/
def dbMissingMsg : String :=
  "DATABASE_URL or SUPABASE_DB_URL environment variable is required for raw SQL queries. You can find this in your Supabase project settings under Database > Connection String. Format: postgresql://postgres:[PASSWORD]@[HOST]:5432/postgres"

/-- Models `runSupabaseQuery`: throws if neither `DATABASE_URL` nor
`SUPABASE_DB_URL` is set, otherwise runs the SQL through the pool and
wraps pool errors in a `Failed to execute SQL query:` message. -/
def runSupabaseQuery (env : Env) (sql : String) : Except String (List Row) :=
  match env.databaseUrl?, env.supabaseDbUrl? with
  | none, none => .error dbMissingMsg
  | _, _ =>
    match env.dbQuery sql with
    | .ok rows => .ok rows
    | .error e => .error ("Failed to execute SQL query: " ++ e)

/-- The orchestrator's try/catch around a query execution: on any error the
result set for that query becomes empty and processing continues. -/
def runQueryOrEmpty (env : Env) (sql : String) : List Row :=
  match runSupabaseQuery env sql with
  | .ok rows => rows
  | .error _ => []

/-! ### Model-variant fallback -/

/-- The fixed ordered list of alternative model identifiers. -/
def altModels : List String :=
  ["models/gemini-pro", "gemini-pro", "models/gemini-1.5-flash",
   "gemini-1.5-flash", "models/gemini-1.5-pro", "gemini-1.5-pro"]

/-- Classification of a generation error as "model/variant unavailable". -/
def is404 (msg : String) : Bool := strIncludes msg "404" || strIncludes msg "not found"

/-- Sequentially try the alternative models until one succeeds; returns the
first successful text (if any) and the number of generation calls made.
`gen` is the generation oracle (model name, prompt). -/
def tryAlts (gen : String → String → Except String String) (prompt : String) :
    List String → Option String × Nat
  | [] => (none, 0)
  | m :: ms =>
    match gen m prompt with
    | .ok t => (some t, 1)
    | .error _ =>
      let r := tryAlts gen prompt ms
      (r.1, r.2 + 1)

/-- One "generate with model fallback" block (duplicated in the source at
the SQL-generation and synthesis call sites, differing only in the error
texts): primary model first; on a 404-class failure walk `altModels`; if
none succeeds (or the winning text is empty) fail with the exhaustion
message, and fail immediately with the other message on non-404 errors.
Returns the outcome and the number of generation calls made. -/
def genWithFallback (gen : String → String → Except String String)
    (modelName prompt allFailMsg otherFailMsg : String) :
    Except String String × Nat :=
  match gen modelName prompt with
  | .ok t => (.ok t, 1)
  | .error e =>
    if is404 e then
      match tryAlts gen prompt altModels with
      | (some t, n) =>
        (if t = "" then .error (allFailMsg ++ e) else .ok t, n + 1)
      | (none, n) => (.error (allFailMsg ++ e), n + 1)
    else (.error (otherFailMsg ++ e), 1)

/-! ### Prompt construction -/

/-- The SQL-generation prompt (step 1 of the route). -/
def sqlGenerationPrompt (schema message uid : String) : String :=
  "You are a PostgreSQL/Supabase SQL expert. Generate a SQL query to answer the user's question.\n\nDatabase Schema:\n"
  ++ schema
  ++ "\n\nUser Question: " ++ message
  ++ "\n\nImportant Rules:\n1. Generate ONLY valid PostgreSQL SQL that is compatible with Supabase\n2. Use ONLY tables and columns that exist in the schema above\n3. Always filter by user_id = '"
  ++ uid
  ++ "' to ensure users only see their own data\n4. Return ONLY the SQL query, no explanations or markdown formatting\n5. For SELECT queries, limit results to a reasonable number (e.g., LIMIT 50 for lists, no limit for counts/sums)\n6. Use proper PostgreSQL syntax (e.g., use TEXT instead of VARCHAR, use DECIMAL for money)\n7. Focus on the MOST RELEVANT data for the question - don't query everything\n8. If the question is about properties, prioritize the properties table and related tables (rent_roll_units, work_requests)\n9. If the question is about subscriptions, focus on the subscriptions table\n10. If the question is about clients, focus on ghl_clients and ghl_weekly_metrics tables\n\nReturn the SQL query in this JSON format:\n\x7b\n  \"sql_query\": \"SELECT ... FROM ... WHERE user_id = '"
  ++ uid ++ "' ...\"\n\x7d"

/-- The automatic page-context query prompt (step 3 of the route). -/
def autoQueryPrompt (schema uid pc : String) : String :=
  "Generate a SQL query to get the most relevant data for a user on the \""
  ++ pc
  ++ "\" page. \n        \nDatabase Schema:\n"
  ++ schema
  ++ "\n\nUser ID: " ++ uid
  ++ "\n\nGenerate a query that would give useful context about what's on this page. For example:\n- If page is \"properties\": Get all properties with key metrics (address, status, cash flow, ROE)\n- If page is \"dashboard\": Get portfolio summary (total properties, total cash flow, top performers)\n- If page is \"agency\": Get all clients with their metrics\n- If page is \"business\": Get campaigns data\n\nReturn ONLY the SQL query in JSON format:\n\x7b\n  \"sql_query\": \"SELECT ... FROM ... WHERE user_id = '"
  ++ uid ++ "' ...\"\n\x7d"

/-- A concrete rendering standing in for `JSON.stringify(rows, null, 2)`;
only its presence (never its exact shape) matters to the verified claims. -/
def jsonStringifyRows (rs : List Row) : String :=
  "[" ++ String.intercalate ", "
    (rs.map fun r =>
      "\x7b" ++ String.intercalate ", "
        (r.map fun kv => "\"" ++ kv.1 ++ "\": \"" ++ kv.2 ++ "\"") ++ "\x7d")
  ++ "]"

/-- The page-specific guidance appended by the `switch (pageContext.toLowerCase())`. -/
def pageGuidance (pc : String) : String :=
  let l := lowerStr pc
  if l = "dashboard" then
    " Focus on overall portfolio health, top performers, and biggest opportunities across all their businesses."
  else if l = "properties" ∨ l = "property" then
    " Focus on individual property performance, cash flow analysis, ROE calculations, and property-specific opportunities."
  else if l = "agency" ∨ l = "agency management" then
    " Focus on client performance, marketing ROI, growth strategies, and agency metrics."
  else if l = "business" ∨ l = "business hub" then
    " Focus on campaigns performance, revenue trends, business metrics, and marketing optimization."
  else if l = "campaigns" then
    " Focus on campaign ROI, performance metrics, budget optimization, and marketing strategy."
  else ""

/-- Step 4: build the page-context information block. -/
def mkPageContextInfo (pc? : Option String) (pageData? : Option String)
    (autoRows : List Row) : String :=
  (match pc? with
   | some pc =>
     "\n**Current Page Context:** The user is on the \"" ++ pc ++ "\" page."
     ++ pageGuidance pc
   | none => "")
  ++ (match pageData? with
      | some pd =>
        "\n\n**Page-Specific Data Available:**\n" ++ pd
        ++ "\n\nUse this data to provide context-aware insights. Reference specific numbers, properties, campaigns, or metrics visible on the page."
      | none => "")
  ++ (if autoRows.length > 0 then
        "\n\n**Automatic Context Data (from database):**\n" ++ jsonStringifyRows autoRows
        ++ "\n\nThis data is automatically available from their database. USE IT in your response - reference specific numbers, properties, or metrics."
      else "")

/-- Step 5: `queryResults.length > 0 ? queryResults : autoQueryResults`. -/
def allQueryResults (queryResults autoQueryResults : List Row) : List Row :=
  if queryResults.length > 0 then queryResults else autoQueryResults

/-- `[sqlQuery, autoQuerySQL].filter(Boolean).join('; ')`. -/
def allSQLQueries (sqlQuery autoQuerySQL : String) : String :=
  String.intercalate "; " (([sqlQuery, autoQuerySQL].filter fun s => s ≠ ""))

/-- Step 6: the data summary, using the retrieved rows when any exist and
the explicit "no data found" framing otherwise. -/
def mkDataSummary (allRes : List Row) (allSQL schema : String) : String :=
  if allRes.length > 0 then
    "Here's the data from the database:\n\n"
    ++ jsonStringifyRows allRes
    ++ "\n\n**SQL Query Used:** "
    ++ (if allSQL = "" then "Auto-query based on page context" else allSQL)
    ++ "\n\n**Database Schema Context:**\n"
    ++ schema
    ++ "\n\n**CRITICAL:** You MUST reference the actual data numbers in your response. Use specific property addresses, exact dollar amounts, percentages, and metrics from the data above. Be BRIEF - 1-3 sentences max unless they ask for details."
  else
    "No specific data found in the database for this question. \n\n**SQL Query Attempted:** "
    ++ (if allSQL = "" then "No SQL query was generated" else allSQL)
    ++ "\n\n**Note:** Provide brief real estate coaching advice based on page context and general principles. Keep it SHORT - 1-2 sentences."

/-- The final synthesis prompt. -/
def mkAnalysisPrompt (sys message pci ds : String) : String :=
  sys
  ++ "\n\n**User's Question:** \"" ++ message ++ "\"\n"
  ++ pci
  ++ "\n\n" ++ ds
  ++ "\n\n**Your Response Guidelines:**\n- **BE BRIEF**: 1-3 sentences MAXIMUM unless they explicitly ask for details, analysis, or \"tell me more\"\n- Use the page context automatically - reference what's on their screen\n- Reference specific numbers from the database OR page data (e.g., \"You have 5 properties\", \"Your campaign ROAS is 3.2x\", \"Property at 123 Main St has 18% ROE\")\n- Be energetic and motivational but data-driven\n- Provide ONE actionable insight, not multiple\n- Optional: Ask ONE quick follow-up question\n- If analyzing properties: mention ROE, cash flow, or key metric briefly\n- If analyzing campaigns: mention ROAS or key metric briefly\n- Always use their actual data - don't speak in generalities\n\n**CRITICAL:** Default to SHORT responses. Only expand if they explicitly ask for more detail, analysis, or explanation.\n\n**Remember:** You're ELO AI - Elite Real Estate Intelligence. Brief, data-driven, actionable!"

/-! ### Pipeline stages -/

/-- The observable outcome of the primary or auxiliary data stage. -/
structure StageOut where
  sql : String
  rows : List Row
  calls : List String
  gens : Nat
deriving DecidableEq, Repr

/-- The SQL-generation exhaustion error prefix. -/
def sqlGenAllFailMsg : String :=
  "All Gemini models failed. Please check your API key and available models. Original error: "

/-- The SQL-generation non-404 error prefix. -/
def sqlGenOtherFailMsg : String := "Failed to generate SQL query: "

/-- The synthesis exhaustion error prefix. -/
def analysisAllFailMsg : String :=
  "All Gemini models failed for analysis. Please check your API key and available models. Original error: "

/-- The synthesis non-404 error prefix. -/
def analysisOtherFailMsg : String := "Failed to generate analysis: "

/-- Step 1 + 2: generate the primary SQL (with model fallback), extract and
security-rewrite it, and execute it; the enclosing try/catch makes every
failure yield empty results (and, for generation failures, leaves
`sqlQuery` at its initial empty value and never reaches the executor). -/
def primaryStage (env : Env) (modelName uid message : String) : StageOut :=
  match genWithFallback env.genContent modelName (sqlGenerationPrompt env.dbSchema message uid)
      sqlGenAllFailMsg sqlGenOtherFailMsg with
  | (.error _, n) => ⟨"", [], [], n⟩
  | (.ok resp, n) =>
    let sq := ensureUserIdFilter uid (extractPrimarySql resp)
    ⟨sq, runQueryOrEmpty env sq, [sq], n⟩

/-- The truthiness filter applied to the supplied page context. -/
def pageCtxOf (body : Body) : Option String :=
  match body.pageContext with
  | some s => if s = "" then none else some s
  | none => none

/-- Step 3: the context-augmenter stage.  Only runs for a truthy page
context; generation or parse failures silently yield nothing; the mutation
guard blocks execution of any text containing `insert`, `update` or
`delete` (case-insensitive) or of an empty text; execution failures keep
the empty auxiliary result set. -/
def auxStage (env : Env) (modelName uid : String) (pc? : Option String) : StageOut :=
  match pc? with
  | none => ⟨"", [], [], 0⟩
  | some pc =>
    match env.genContent modelName (autoQueryPrompt env.dbSchema uid pc) with
    | .error _ => ⟨"", [], [], 1⟩
    | .ok t =>
      let asql := extractAuxSql t
      if asql ≠ "" && !strIncludes (lowerStr asql) "insert"
          && !strIncludes (lowerStr asql) "update"
          && !strIncludes (lowerStr asql) "delete" then
        ⟨asql, runQueryOrEmpty env asql, [asql], 1⟩
      else ⟨asql, [], [], 1⟩

/-! ### Streaming delivery -/

/-- Consume the generation channel inside the `ReadableStream` start
callback: each nonempty chunk text is forwarded immediately and accumulated;
a chunk whose `text()` throws is skipped; an iterator error emits the inline
error notice and closes; normal completion closes (after the cache write).
Returns (emitted fragments, number of `controller.close()` calls, the
accumulated full text when the stream completed without an iterator
error). -/
def runStream : List ChunkEvent → List String × Nat × Option String
  | [] => ([], 1, some "")
  | .text s :: r =>
    let o := runStream r
    if s = "" then o
    else (s :: o.1, o.2.1, o.2.2.map fun full => s ++ full)
  | .textError :: r => runStream r
  | .iterError m :: _ => (["\n\nError: " ++ m], 1, none)

/-- The nonempty chunk texts of an event list, up to the first iterator
error. -/
def emittedTexts : List ChunkEvent → List String
  | [] => []
  | .text s :: r => if s = "" then emittedTexts r else s :: emittedTexts r
  | .textError :: r => emittedTexts r
  | .iterError _ :: _ => []

/-- Event lists with no iterator error. -/
def noIterError : List ChunkEvent → Bool
  | [] => true
  | .iterError _ :: _ => false
  | _ :: r => noIterError r

/-! ### The orchestrator (`POST` handler) -/

/-- The buffered synthesis tail (step "Non-streaming response (or
fallback)"): generate with model fallback; on success return the reply with
its metadata block and record the cache write; on failure the error
propagates to the outer handler as a 500 response. -/
def bufferedFinish (env : Env) (modelName uid message : String) (p : StageOut)
    (prompt : String) (base : Trace) : ApiResult × Trace :=
  match genWithFallback env.genContent modelName prompt
      analysisAllFailMsg analysisOtherFailMsg with
  | (.ok reply, n) =>
    (.jsonOk reply false none
      (some ⟨(if p.sql = "" then "No SQL generated" else p.sql),
             p.rows.length, p.rows.length > 0,
             if p.rows.length > 0 then some (p.rows.take 3) else none⟩),
     { base with genCalls := base.genCalls + n,
                 cacheWrites := base.cacheWrites ++
                   [⟨uid, message, reply,
                     (if p.sql = "" then none else some p.sql), p.rows.length⟩] })
  | (.error m, n) =>
    (.jsonError 500 m, { base with genCalls := base.genCalls + n })

/-- The pipeline after authentication, configuration, body validation and
the cache check: primary stage, context augmentation, prompt assembly, and
delivery (streaming with fallback-to-buffered, or buffered). -/
def pipeline (env : Env) (uid message : String) (body : Body)
    (useStreaming : Bool) : ApiResult × Trace :=
  let modelName := env.availableModel?.getD "gemini-pro"
  let p := primaryStage env modelName uid message
  let pc? : Option String := pageCtxOf body
  let a := auxStage env modelName uid pc?
  let pci := mkPageContextInfo pc? body.pageData a.rows
  let allRes := allQueryResults p.rows a.rows
  let allSQL := allSQLQueries p.sql a.sql
  let ds := mkDataSummary allRes allSQL env.dbSchema
  let prompt := mkAnalysisPrompt env.systemPrompt message pci ds
  let base : Trace :=
    { genCalls := p.gens + a.gens, primaryExecCalls := p.calls, auxExecCalls := a.calls }
  if useStreaming then
    match env.genContentStream modelName prompt with
    | .ok events =>
      let o := runStream events
      let writes : List CacheWrite :=
        match o.2.2 with
        | some full =>
          [⟨uid, message, full, (if p.sql = "" then none else some p.sql), p.rows.length⟩]
        | none => []
      (.streamBody o.1 o.2.1,
       { base with genCalls := base.genCalls + 1, cacheWrites := writes })
    | .error _ =>
      bufferedFinish env modelName uid message p prompt
        { base with genCalls := base.genCalls + 1 }
  else
    bufferedFinish env modelName uid message p prompt base

/-- The development-only debug block of the cached-hit response. -/
def cacheDebug (nodeEnv : String) (c : CacheEntry) : Option (String × Nat) :=
  if nodeEnv = "development" then
    some (c.sqlQuery.getD "No SQL generated", c.resultCount.getD 0)
  else none

/-- The 500 text for a missing Gemini API key. -/
def geminiKeyMsg : String :=
  "Gemini API key not configured. Please set GEMINI_API_KEY in your Vercel environment variables."

/-- The POST handler: authentication, configuration check, body parse and
validation, cache consultation (non-streaming only), then the pipeline.
Any exception escaping to the outer handler becomes a 500 JSON error. -/
def post (env : Env) : ApiResult × Trace :=
  match env.user? with
  | none => (.jsonError 401 "Unauthorized", {})
  | some uid =>
    match env.geminiApiKey? with
    | none => (.jsonError 500 geminiKeyMsg, {})
    | some _ =>
      match env.bodyResult with
      | .error e => (.jsonError 500 e, {})
      | .ok body =>
        if !(body.message.truthy && body.message.isString) then
          (.jsonError 400 "Message is required", {})
        else
          let message := body.message.asStr
          let useStreaming := useStreamingOf body
          if !useStreaming then
            match env.cached? with
            | some c =>
              (.jsonOk c.response true (cacheDebug env.nodeEnv c) none,
               { cacheLookups := 1 })
            | none =>
              let r := pipeline env uid message body false
              (r.1, { r.2 with cacheLookups := 1 })
          else pipeline env uid message body true

/-! ### Structural lemmas about the orchestrator -/

/-- Every terminal path of the stream-consumption loop closes the client
channel exactly once. -/
theorem runStream_closes (ev : List ChunkEvent) : (runStream ev).2.1 = 1 := by
  induction ev with
  | nil => rfl
  | cons e r ih =>
    cases e with
    | text s =>
      simp only [runStream]
      split <;> simpa using ih
    | textError => simpa [runStream] using ih
    | iterError m => rfl

/-- The buffered synthesis tail does not touch the cache-lookup counter. -/
theorem bufferedFinish_cacheLookups (env : Env) (mn uid msg : String) (p : StageOut)
    (prompt : String) (base : Trace) :
    (bufferedFinish env mn uid msg p prompt base).2.cacheLookups = base.cacheLookups := by
  unfold bufferedFinish
  split <;> rfl

/-- The buffered synthesis tail does not touch the primary executor-call list. -/
theorem bufferedFinish_primaryCalls (env : Env) (mn uid msg : String) (p : StageOut)
    (prompt : String) (base : Trace) :
    (bufferedFinish env mn uid msg p prompt base).2.primaryExecCalls = base.primaryExecCalls := by
  unfold bufferedFinish
  split <;> rfl

/-- The buffered synthesis tail does not touch the auxiliary executor-call list. -/
theorem bufferedFinish_auxCalls (env : Env) (mn uid msg : String) (p : StageOut)
    (prompt : String) (base : Trace) :
    (bufferedFinish env mn uid msg p prompt base).2.auxExecCalls = base.auxExecCalls := by
  unfold bufferedFinish
  split <;> rfl

/-- The buffered synthesis tail never produces a streamed body. -/
theorem bufferedFinish_not_stream (env : Env) (mn uid msg : String) (p : StageOut)
    (prompt : String) (base : Trace) (f : List String) (c : Nat) :
    (bufferedFinish env mn uid msg p prompt base).1 ≠ .streamBody f c := by
  unfold bufferedFinish
  split <;> simp

/-- The pipeline performs no cache lookups. -/
theorem pipeline_cacheLookups (env : Env) (uid msg : String) (body : Body) (us : Bool) :
    (pipeline env uid msg body us).2.cacheLookups = 0 := by
  simp only [pipeline]
  split
  · split
    · rfl
    · exact bufferedFinish_cacheLookups ..
  · exact bufferedFinish_cacheLookups ..

/-- The pipeline's auxiliary executor calls are exactly those of the
context-augmenter stage. -/
theorem pipeline_auxCalls (env : Env) (uid msg : String) (body : Body) (us : Bool) :
    (pipeline env uid msg body us).2.auxExecCalls =
      (auxStage env (env.availableModel?.getD "gemini-pro") uid (pageCtxOf body)).calls := by
  simp only [pipeline]
  split
  · split
    · rfl
    · exact bufferedFinish_auxCalls ..
  · exact bufferedFinish_auxCalls ..

/-- Any SQL text the context-augmenter stage hands to the executor passed
the mutation guard. -/
theorem auxStage_calls_guard (env : Env) (mn uid : String) (pc? : Option String)
    (s : String) (h : s ∈ (auxStage env mn uid pc?).calls) :
    (strIncludes (lowerStr s) "insert" || strIncludes (lowerStr s) "update" ||
     strIncludes (lowerStr s) "delete") = false := by
  cases pc? with
  | none => simp [auxStage] at h
  | some pc =>
    simp only [auxStage] at h
    split at h
    · simp at h
    · split at h
      · rename_i hguard
        simp only [List.mem_singleton] at h
        subst h
        simp only [Bool.and_eq_true, Bool.not_eq_true', decide_eq_true_eq] at hguard
        obtain ⟨⟨⟨-, h1⟩, h2⟩, h3⟩ := hguard
        simp [h1, h2, h3]
      · simp at h

/-- The auxiliary executor-call list of a whole request is empty or comes
from the context-augmenter stage. -/
theorem post_auxCalls (env : Env) :
    (post env).2.auxExecCalls = [] ∨
    ∃ uid body, (post env).2.auxExecCalls =
      (auxStage env (env.availableModel?.getD "gemini-pro") uid (pageCtxOf body)).calls := by
  simp only [post]
  split
  · exact Or.inl rfl
  split
  · exact Or.inl rfl
  split
  · exact Or.inl rfl
  split
  · exact Or.inl rfl
  split
  · split
    · exact Or.inl rfl
    · exact Or.inr ⟨_, _, pipeline_auxCalls ..⟩
  · exact Or.inr ⟨_, _, pipeline_auxCalls ..⟩

/-! ### C2: the mutation guard on the auxiliary path -/

/-- C2: any SQL text passed to the query executor from the auxiliary
(context-augmenter) path contains none of `insert`, `update`, `delete`
(case-insensitive); texts containing them never reach the executor from
that path. -/
theorem aux_mutation_guard (env : Env) (s : String)
    (h : s ∈ (post env).2.auxExecCalls) :
    (strIncludes (lowerStr s) "insert" || strIncludes (lowerStr s) "update" ||
     strIncludes (lowerStr s) "delete") = false := by
  rcases post_auxCalls env with he | ⟨uid, body, he⟩
  · rw [he] at h
    simp at h
  · rw [he] at h
    exact auxStage_calls_guard _ _ _ _ _ h

/-! ### C4: cache consultation discipline -/

/-- C4: a streaming request never consults the cache; a non-streaming
request with a cache hit returns the stored text with `cached = true` and a
trace showing one cache lookup and no generation, executor call or cache
write. -/
theorem cache_consultation :
    (∀ (env : Env) (b : Body), env.bodyResult = .ok b → useStreamingOf b = true →
      (post env).2.cacheLookups = 0)
    ∧ (∀ (env : Env) (uid k : String) (b : Body) (c : CacheEntry),
      env.user? = some uid → env.geminiApiKey? = some k →
      env.bodyResult = .ok b → (b.message.truthy && b.message.isString) = true →
      useStreamingOf b = false → env.cached? = some c →
      post env = (.jsonOk c.response true (cacheDebug env.nodeEnv c) none,
                  { cacheLookups := 1 })) := by
  constructor
  · intro env b hb hs
    simp only [post]
    split
    · rfl
    split
    · rfl
    split
    · rfl
    rename_i body heq
    rw [hb] at heq
    injection heq with heq
    subst heq
    split
    · rfl
    · simp only [hs, Bool.not_true, Bool.false_eq_true, if_false]
      exact pipeline_cacheLookups ..
  · intro env uid k b c hu hk hb hm hs hc
    simp only [post, hu, hk, hb]
    rw [hm]
    simp only [Bool.not_true, Bool.false_eq_true, if_false]
    rw [hs]
    simp only [Bool.not_false, if_true, hc]

/-- Concrete instantiation of `cache_consultation`. -/
def wEnvStreamDefault : Env :=
  { user? := some "u1", geminiApiKey? := some "k",
    bodyResult := .ok { message := .str "hi" },
    genContent := fun _ _ => .ok "x",
    genContentStream := fun _ _ => .error "b",
    dbQuery := fun _ => .ok [] }

/-- Concrete cached-hit environment. -/
def wEnvCached : Env :=
  { user? := some "u1", geminiApiKey? := some "k",
    bodyResult := .ok { message := .str "hi", stream := .boolean false },
    cached? := some ⟨"ans", none, none⟩,
    genContent := fun _ _ => .ok "x",
    genContentStream := fun _ _ => .error "b",
    dbQuery := fun _ => .ok [] }

theorem cache_consultation_witness :
    (post wEnvStreamDefault).2.cacheLookups = 0 ∧
    post wEnvCached = (.jsonOk "ans" true none none, { cacheLookups := 1 }) :=
  ⟨cache_consultation.1 wEnvStreamDefault { message := .str "hi" } rfl rfl,
   cache_consultation.2 wEnvCached "u1" "k" { message := .str "hi", stream := .boolean false }
     ⟨"ans", none, none⟩ rfl rfl rfl (by decide) rfl rfl⟩

/-! ### C9: malformed `message` field -/

/-- C9: when the body's `message` field is absent or not a string, the
response is the 400 "Message is required" error and the trace is empty
(no generation, no query execution, no synthesis, no cache access). -/
theorem bad_request_message (env : Env) (uid k : String) (b : Body)
    (hu : env.user? = some uid) (hk : env.geminiApiKey? = some k)
    (hb : env.bodyResult = .ok b)
    (hbad : b.message = .undef ∨ b.message.isString = false) :
    post env = (.jsonError 400 "Message is required", ({} : Trace)) := by
  have hcond : (b.message.truthy && b.message.isString) = false := by
    rcases hbad with h | h
    · rw [h]
      rfl
    · rw [h, Bool.and_false]
  simp only [post, hu, hk, hb]
  rw [hcond]
  rfl

/-- Concrete bad-message environment (a numeric `message`). -/
def wEnvBadMsg : Env :=
  { user? := some "u1", geminiApiKey? := some "k",
    bodyResult := .ok { message := .num 5 },
    genContent := fun _ _ => .ok "x",
    genContentStream := fun _ _ => .error "b",
    dbQuery := fun _ => .ok [] }

theorem bad_request_message_witness :
    post wEnvBadMsg = (.jsonError 400 "Message is required", ({} : Trace)) :=
  bad_request_message wEnvBadMsg "u1" "k" { message := .num 5 } rfl rfl rfl (Or.inr rfl)

/-- Concrete auxiliary-execution environment (page context present,
generator returns a plain read query). -/
def wEnvAuxRead : Env :=
  { user? := some "u1", geminiApiKey? := some "k", databaseUrl? := some "db",
    bodyResult := .ok { message := .str "hi", stream := .boolean false,
                        pageContext := some "dashboard" },
    genContent := fun _ _ => .ok "SELECT 1",
    genContentStream := fun _ _ => .error "b",
    dbQuery := fun _ => .ok [] }

theorem aux_mutation_guard_witness :
    "SELECT 1" ∈ (post wEnvAuxRead).2.auxExecCalls ∧
    (strIncludes (lowerStr "SELECT 1") "insert" || strIncludes (lowerStr "SELECT 1") "update" ||
     strIncludes (lowerStr "SELECT 1") "delete") = false :=
  ⟨by decide, aux_mutation_guard wEnvAuxRead "SELECT 1" (by decide)⟩

/-! ### C6: query-execution failures are non-fatal -/

/-- The same environment with every query-executor failure replaced by an
empty (successful) result set. -/
def maskDbErrors (env : Env) : Env :=
  { env with dbQuery := fun q =>
      match env.dbQuery q with
      | .ok rows => .ok rows
      | .error _ => .ok [] }

theorem runQueryOrEmpty_mask (env : Env) (q : String) :
    runQueryOrEmpty (maskDbErrors env) q = runQueryOrEmpty env q := by
  simp only [runQueryOrEmpty, runSupabaseQuery, maskDbErrors]
  cases env.databaseUrl? <;> cases env.supabaseDbUrl? <;>
    cases env.dbQuery q <;> simp

theorem primaryStage_mask (env : Env) (mn uid msg : String) :
    primaryStage (maskDbErrors env) mn uid msg = primaryStage env mn uid msg := by
  simp only [primaryStage,
    show (maskDbErrors env).genContent = env.genContent from rfl,
    show (maskDbErrors env).dbSchema = env.dbSchema from rfl,
    runQueryOrEmpty_mask]

theorem auxStage_mask (env : Env) (mn uid : String) (pc? : Option String) :
    auxStage (maskDbErrors env) mn uid pc? = auxStage env mn uid pc? := by
  simp only [auxStage,
    show (maskDbErrors env).genContent = env.genContent from rfl,
    show (maskDbErrors env).dbSchema = env.dbSchema from rfl,
    runQueryOrEmpty_mask]

theorem bufferedFinish_mask (env : Env) (mn uid msg : String) (p : StageOut)
    (prompt : String) (base : Trace) :
    bufferedFinish (maskDbErrors env) mn uid msg p prompt base =
      bufferedFinish env mn uid msg p prompt base := by
  simp only [bufferedFinish,
    show (maskDbErrors env).genContent = env.genContent from rfl]

theorem pipeline_mask (env : Env) (uid msg : String) (body : Body) (us : Bool) :
    pipeline (maskDbErrors env) uid msg body us = pipeline env uid msg body us := by
  simp only [pipeline, primaryStage_mask, auxStage_mask, bufferedFinish_mask,
    show (maskDbErrors env).availableModel? = env.availableModel? from rfl,
    show (maskDbErrors env).dbSchema = env.dbSchema from rfl,
    show (maskDbErrors env).systemPrompt = env.systemPrompt from rfl,
    show (maskDbErrors env).genContentStream = env.genContentStream from rfl]

/-- C6: a failing query execution is indistinguishable from one returning
an empty result set — the result set becomes empty, processing continues,
and the request's outcome and trace are identical; in particular no
query-execution error ever aborts the request. -/
theorem query_failure_nonfatal (env : Env) : post (maskDbErrors env) = post env := by
  simp only [post, pipeline_mask,
    show (maskDbErrors env).user? = env.user? from rfl,
    show (maskDbErrors env).geminiApiKey? = env.geminiApiKey? from rfl,
    show (maskDbErrors env).bodyResult = env.bodyResult from rfl,
    show (maskDbErrors env).cached? = env.cached? from rfl,
    show (maskDbErrors env).nodeEnv = env.nodeEnv from rfl]

/-! ### Shape lemmas for degraded and happy runs -/

/-- The pipeline under a constant-success generation oracle, no page
context and empty query results: a buffered success whose reply is the
oracle text, with the rewritten primary SQL as the only executor call. -/
theorem pipeline_buffered_shape (env : Env) (uid m r : String) (b : Body)
    (hpc : b.pageContext = none)
    (hg : ∀ mo pr, env.genContent mo pr = .ok r)
    (hdb : ∀ q, runQueryOrEmpty env q = []) :
    pipeline env uid m b false =
      (.jsonOk r false none
        (some ⟨(if ensureUserIdFilter uid (extractPrimarySql r) = "" then "No SQL generated"
                else ensureUserIdFilter uid (extractPrimarySql r)), 0, false, none⟩),
       { cacheLookups := 0, genCalls := 2,
         primaryExecCalls := [ensureUserIdFilter uid (extractPrimarySql r)],
         auxExecCalls := [],
         cacheWrites := [⟨uid, m, r,
           (if ensureUserIdFilter uid (extractPrimarySql r) = "" then none
            else some (ensureUserIdFilter uid (extractPrimarySql r))), 0⟩] }) := by
  simp only [pipeline, pageCtxOf, hpc, primaryStage, genWithFallback, hg, auxStage,
    bufferedFinish, hdb, Bool.false_eq_true, if_false]
  simp

/-- A whole buffered request under a constant-success generation oracle,
a cache miss, no page context and empty query results. -/
theorem post_buffered_shape (env : Env) (uid k m r : String) (b : Body)
    (hu : env.user? = some uid) (hk : env.geminiApiKey? = some k)
    (hb : env.bodyResult = .ok b) (hm : b.message = .str m) (hm0 : m ≠ "")
    (hs : useStreamingOf b = false) (hc : env.cached? = none)
    (hpc : b.pageContext = none)
    (hg : ∀ mo pr, env.genContent mo pr = .ok r)
    (hdb : ∀ q, runQueryOrEmpty env q = []) :
    post env =
      (.jsonOk r false none
        (some ⟨(if ensureUserIdFilter uid (extractPrimarySql r) = "" then "No SQL generated"
                else ensureUserIdFilter uid (extractPrimarySql r)), 0, false, none⟩),
       { cacheLookups := 1, genCalls := 2,
         primaryExecCalls := [ensureUserIdFilter uid (extractPrimarySql r)],
         auxExecCalls := [],
         cacheWrites := [⟨uid, m, r,
           (if ensureUserIdFilter uid (extractPrimarySql r) = "" then none
            else some (ensureUserIdFilter uid (extractPrimarySql r))), 0⟩] }) := by
  have hmsg : ((JsVal.str m).truthy && (JsVal.str m).isString) = true := by
    simp [JsVal.truthy, JsVal.isString, hm0]
  simp only [post, hu, hk, hb, hm, hmsg, Bool.not_true, Bool.false_eq_true, if_false, hs,
    Bool.not_false, if_true, hc, JsVal.asStr]
  rw [pipeline_buffered_shape env uid m r b hpc hg hdb]

/-- Exhausting the primary model and the whole alternative list yields the
exhaustion error after seven generation calls. -/
theorem genWithFallback_exhausted (gen : String → String → Except String String)
    (mn prompt m1 m2 e : String)
    (hg : ∀ mo, gen mo prompt = .error e) (h404 : is404 e = true) :
    genWithFallback gen mn prompt m1 m2 = (.error (m1 ++ e), 7) := by
  simp [genWithFallback, hg, h404, tryAlts, altModels]

/-- Under SQL-generation exhaustion the primary stage produces the empty
query, empty results and no executor call. -/
theorem primaryStage_exhausted (env : Env) (mn uid msg e : String)
    (hg : ∀ mo, env.genContent mo (sqlGenerationPrompt env.dbSchema msg uid) = .error e)
    (h404 : is404 e = true) :
    primaryStage env mn uid msg = ⟨"", [], [], 7⟩ := by
  simp [primaryStage,
    genWithFallback_exhausted env.genContent mn (sqlGenerationPrompt env.dbSchema msg uid)
      sqlGenAllFailMsg sqlGenOtherFailMsg e hg h404]

/-- `allQueryResults` of two empty sets is empty. -/
theorem allQueryResults_nil : allQueryResults [] [] = [] := rfl

/-- A whole buffered request in which every SQL-generation attempt fails
with a model-unavailable error while synthesis succeeds: a degraded 200
success, no primary executor call, and the "no SQL generated" metadata. -/
theorem post_sqlgen_exhausted_shape (env : Env) (uid k m r e : String) (b : Body)
    (hu : env.user? = some uid) (hk : env.geminiApiKey? = some k)
    (hb : env.bodyResult = .ok b) (hm : b.message = .str m) (hm0 : m ≠ "")
    (hs : useStreamingOf b = false) (hc : env.cached? = none)
    (hpc : b.pageContext = none) (hpd : b.pageData = none)
    (hgsql : ∀ mo, env.genContent mo (sqlGenerationPrompt env.dbSchema m uid) = .error e)
    (h404 : is404 e = true)
    (hgok : ∀ mo pr, pr ≠ sqlGenerationPrompt env.dbSchema m uid →
      env.genContent mo pr = .ok r)
    (hne : mkAnalysisPrompt env.systemPrompt m (mkPageContextInfo none none [])
      (mkDataSummary [] (allSQLQueries "" "") env.dbSchema) ≠
      sqlGenerationPrompt env.dbSchema m uid) :
    post env =
      (.jsonOk r false none (some ⟨"No SQL generated", 0, false, none⟩),
       { cacheLookups := 1, genCalls := 8, primaryExecCalls := [], auxExecCalls := [],
         cacheWrites := [⟨uid, m, r, none, 0⟩] }) := by
  have hmsg : ((JsVal.str m).truthy && (JsVal.str m).isString) = true := by
    simp [JsVal.truthy, JsVal.isString, hm0]
  have hok : ∀ mo, env.genContent mo
      (mkAnalysisPrompt env.systemPrompt m (mkPageContextInfo none none [])
        (mkDataSummary [] (allSQLQueries "" "") env.dbSchema)) = .ok r :=
    fun mo => hgok mo _ hne
  simp only [post, hu, hk, hb, hm, hmsg, Bool.not_true, Bool.false_eq_true, if_false, hs,
    Bool.not_false, if_true, hc, JsVal.asStr]
  simp only [pipeline, pageCtxOf, hpc, hpd,
    primaryStage_exhausted env _ uid m e hgsql h404, auxStage, allQueryResults_nil,
    bufferedFinish, genWithFallback, hok, Bool.false_eq_true, if_false]
  simp

/-- A whole buffered request in which every generation attempt fails with a
model-unavailable error: SQL generation exhaustion is absorbed, but
synthesis exhaustion surfaces as a 500 error carrying the synthesis
exhaustion message. -/
theorem post_allgen_failed_shape (env : Env) (uid k m e : String) (b : Body)
    (hu : env.user? = some uid) (hk : env.geminiApiKey? = some k)
    (hb : env.bodyResult = .ok b) (hm : b.message = .str m) (hm0 : m ≠ "")
    (hs : useStreamingOf b = false) (hc : env.cached? = none)
    (hpc : b.pageContext = none)
    (hgerr : ∀ mo pr, env.genContent mo pr = .error e) (h404 : is404 e = true) :
    post env =
      (.jsonError 500 (analysisAllFailMsg ++ e),
       { cacheLookups := 1, genCalls := 14, primaryExecCalls := [], auxExecCalls := [],
         cacheWrites := [] }) := by
  have hmsg : ((JsVal.str m).truthy && (JsVal.str m).isString) = true := by
    simp [JsVal.truthy, JsVal.isString, hm0]
  have hgen : ∀ mn prompt m1 m2,
      genWithFallback env.genContent mn prompt m1 m2 = (.error (m1 ++ e), 7) :=
    fun mn prompt m1 m2 =>
      genWithFallback_exhausted env.genContent mn prompt m1 m2 e
        (fun mo => hgerr mo prompt) h404
  have hp : ∀ mn, primaryStage env mn uid m = ⟨"", [], [], 7⟩ := by
    intro mn
    simp [primaryStage, hgen]
  simp only [post, hu, hk, hb, hm, hmsg, Bool.not_true, Bool.false_eq_true, if_false, hs,
    Bool.not_false, if_true, hc, JsVal.asStr]
  simp only [pipeline, pageCtxOf, hpc, hp, auxStage, bufferedFinish, hgen,
    Bool.false_eq_true, if_false]

/-- The "no data found" framing opens the data summary whenever the merged
result set is empty. -/
theorem mkDataSummary_noData (allSQL schema : String) :
    "No specific data found in the database for this question.".data.isPrefixOf
      (mkDataSummary [] allSQL schema).data = true := by
  rw [List.isPrefixOf_iff_prefix]
  have h : (mkDataSummary [] allSQL schema).data =
      "No specific data found in the database for this question. \n\n**SQL Query Attempted:** ".data
      ++ ((if allSQL = "" then ("No SQL query was generated" : String) else allSQL).data
          ++ "\n\n**Note:** Provide brief real estate coaching advice based on page context and general principles. Keep it SHORT - 1-2 sentences.".data) := by
    simp [mkDataSummary, List.append_assoc]
  rw [h]
  refine List.IsPrefix.trans ?_ (List.prefix_append _ _)
  rw [← List.isPrefixOf_iff_prefix]
  decide

/-! ### C5: synthesis prompt selection and the degraded answer -/

/-- C5: the synthesis context uses the primary result set when nonempty,
falls back to the auxiliary set otherwise, uses the explicit "no data
found" framing when both are empty, and in the both-empty case the request
still produces an answer. -/
theorem synthesis_prompt_selection :
    (∀ (q a : List Row), q ≠ [] → allQueryResults q a = q)
    ∧ (∀ (a : List Row), allQueryResults [] a = a)
    ∧ (∀ (allSQL schema : String),
        "No specific data found in the database for this question.".data.isPrefixOf
          (mkDataSummary [] allSQL schema).data = true)
    ∧ (∀ (env : Env) (uid k m r : String) (b : Body),
        env.user? = some uid → env.geminiApiKey? = some k →
        env.bodyResult = .ok b → b.message = .str m → m ≠ "" →
        useStreamingOf b = false → env.cached? = none → b.pageContext = none →
        (∀ mo pr, env.genContent mo pr = .ok r) →
        (∀ q, runQueryOrEmpty env q = []) →
        (post env).1 = .jsonOk r false none
          (some ⟨(if ensureUserIdFilter uid (extractPrimarySql r) = "" then "No SQL generated"
                  else ensureUserIdFilter uid (extractPrimarySql r)), 0, false, none⟩)) := by
  refine ⟨?_, ?_, mkDataSummary_noData, ?_⟩
  · intro q a hq
    simp [allQueryResults, List.length_pos, hq]
  · intro a
    rfl
  · intro env uid k m r b hu hk hb hm hm0 hs hc hpc hg hdb
    rw [post_buffered_shape env uid k m r b hu hk hb hm hm0 hs hc hpc hg hdb]

/-- Concrete no-data environment. -/
def wEnvNoData : Env :=
  { user? := some "u1", geminiApiKey? := some "k", databaseUrl? := some "db",
    bodyResult := .ok { message := .str "hi", stream := .boolean false },
    genContent := fun _ _ => .ok "hello",
    genContentStream := fun _ _ => .error "b",
    dbQuery := fun _ => .ok [] }

/-- One sample row. -/
def wRow : Row := [("count", "3")]

theorem synthesis_prompt_selection_witness :
    allQueryResults [wRow] [wRow, wRow] = [wRow]
    ∧ allQueryResults [] [wRow] = [wRow]
    ∧ "No specific data found in the database for this question.".data.isPrefixOf
        (mkDataSummary [] "" "S").data = true
    ∧ (post wEnvNoData).1 = .jsonOk "hello" false none (some ⟨"hello", 0, false, none⟩) :=
  ⟨synthesis_prompt_selection.1 [wRow] [wRow, wRow] (by decide),
   synthesis_prompt_selection.2.1 [wRow],
   synthesis_prompt_selection.2.2.1 "" "S",
   synthesis_prompt_selection.2.2.2 wEnvNoData "u1" "k" "hi" "hello"
     { message := .str "hi", stream := .boolean false }
     rfl rfl rfl rfl (by decide) rfl rfl rfl (fun _ _ => rfl) (fun _ => rfl)⟩

/-! ### C7: SQL-generation exhaustion degrades instead of terminating -/

/-- C7: when SQL generation fails after the alternative-model list is
exhausted, the primary stage yields the empty query, empty results and no
executor call, and the whole request still reaches synthesis and succeeds
in advice-only mode. -/
theorem sqlgen_exhaustion_degrades :
    (∀ (env : Env) (mn uid msg e : String),
      (∀ mo, env.genContent mo (sqlGenerationPrompt env.dbSchema msg uid) = .error e) →
      is404 e = true → primaryStage env mn uid msg = ⟨"", [], [], 7⟩)
    ∧ (∀ (env : Env) (uid k m r e : String) (b : Body),
      env.user? = some uid → env.geminiApiKey? = some k →
      env.bodyResult = .ok b → b.message = .str m → m ≠ "" →
      useStreamingOf b = false → env.cached? = none →
      b.pageContext = none → b.pageData = none →
      (∀ mo, env.genContent mo (sqlGenerationPrompt env.dbSchema m uid) = .error e) →
      is404 e = true →
      (∀ mo pr, pr ≠ sqlGenerationPrompt env.dbSchema m uid → env.genContent mo pr = .ok r) →
      mkAnalysisPrompt env.systemPrompt m (mkPageContextInfo none none [])
        (mkDataSummary [] (allSQLQueries "" "") env.dbSchema) ≠
        sqlGenerationPrompt env.dbSchema m uid →
      post env =
        (.jsonOk r false none (some ⟨"No SQL generated", 0, false, none⟩),
         { cacheLookups := 1, genCalls := 8, primaryExecCalls := [], auxExecCalls := [],
           cacheWrites := [⟨uid, m, r, none, 0⟩] })) :=
  ⟨primaryStage_exhausted, post_sqlgen_exhausted_shape⟩

/-- Concrete environment whose generation oracle fails with a 404-style
error exactly on the SQL-generation prompt. -/
def wEnvSqlExh : Env :=
  { user? := some "u1", geminiApiKey? := some "k", databaseUrl? := some "db",
    bodyResult := .ok { message := .str "hi", stream := .boolean false },
    dbSchema := "S", systemPrompt := "SYS",
    genContent := fun _ p =>
      if p = sqlGenerationPrompt "S" "hi" "u1" then .error "404" else .ok "fine",
    genContentStream := fun _ _ => .error "b",
    dbQuery := fun _ => .ok [] }

theorem sqlgen_exhaustion_degrades_witness :
    primaryStage wEnvSqlExh "gemini-pro" "u1" "hi" = ⟨"", [], [], 7⟩
    ∧ post wEnvSqlExh =
      (.jsonOk "fine" false none (some ⟨"No SQL generated", 0, false, none⟩),
       { cacheLookups := 1, genCalls := 8, primaryExecCalls := [], auxExecCalls := [],
         cacheWrites := [⟨"u1", "hi", "fine", none, 0⟩] }) :=
  ⟨sqlgen_exhaustion_degrades.1 wEnvSqlExh "gemini-pro" "u1" "hi" "404"
     (fun _ => by simp [wEnvSqlExh]) (by decide),
   sqlgen_exhaustion_degrades.2 wEnvSqlExh "u1" "k" "hi" "fine" "404"
     { message := .str "hi", stream := .boolean false }
     rfl rfl rfl rfl (by decide) rfl rfl rfl rfl
     (fun _ => by simp [wEnvSqlExh]) (by decide)
     (fun _ pr h => by
       simp only [wEnvSqlExh] at h ⊢
       exact if_neg h)
     (by decide)⟩

/-! ### C10: missing database configuration is non-fatal -/

/-- C10: with both database URLs unset the executor fails on every call
with the missing-configuration error, yet the request completes as an
advice-only success; only a missing Gemini API key is a fatal
configuration error. -/
theorem db_unconfigured_nonfatal :
    (∀ (env : Env), env.databaseUrl? = none → env.supabaseDbUrl? = none →
      ∀ s, runSupabaseQuery env s = .error dbMissingMsg)
    ∧ (∀ (env : Env) (uid k m r : String) (b : Body),
      env.databaseUrl? = none → env.supabaseDbUrl? = none →
      env.user? = some uid → env.geminiApiKey? = some k →
      env.bodyResult = .ok b → b.message = .str m → m ≠ "" →
      useStreamingOf b = false → env.cached? = none → b.pageContext = none →
      (∀ mo pr, env.genContent mo pr = .ok r) →
      post env =
        (.jsonOk r false none
          (some ⟨(if ensureUserIdFilter uid (extractPrimarySql r) = "" then "No SQL generated"
                  else ensureUserIdFilter uid (extractPrimarySql r)), 0, false, none⟩),
         { cacheLookups := 1, genCalls := 2,
           primaryExecCalls := [ensureUserIdFilter uid (extractPrimarySql r)],
           auxExecCalls := [],
           cacheWrites := [⟨uid, m, r,
             (if ensureUserIdFilter uid (extractPrimarySql r) = "" then none
              else some (ensureUserIdFilter uid (extractPrimarySql r))), 0⟩] }))
    ∧ (∀ (env : Env) (uid : String), env.user? = some uid → env.geminiApiKey? = none →
      post env = (.jsonError 500 geminiKeyMsg, ({} : Trace))) := by
  refine ⟨?_, ?_, ?_⟩
  · intro env h1 h2 s
    simp [runSupabaseQuery, h1, h2]
  · intro env uid k m r b h1 h2 hu hk hb hm hm0 hs hc hpc hg
    have hdb : ∀ q, runQueryOrEmpty env q = [] := by
      intro q
      simp [runQueryOrEmpty, runSupabaseQuery, h1, h2]
    exact post_buffered_shape env uid k m r b hu hk hb hm hm0 hs hc hpc hg hdb
  · intro env uid hu hk
    simp [post, hu, hk]

/-- Concrete environment with no database configuration. -/
def wEnvNoDb : Env :=
  { user? := some "u1", geminiApiKey? := some "k",
    bodyResult := .ok { message := .str "hi", stream := .boolean false },
    genContent := fun _ _ => .ok "hello",
    genContentStream := fun _ _ => .error "b",
    dbQuery := fun _ => .ok [] }

/-- Concrete environment with no Gemini API key. -/
def wEnvNoKey : Env :=
  { user? := some "u1", geminiApiKey? := none,
    bodyResult := .ok { message := .str "hi" },
    genContent := fun _ _ => .ok "hello",
    genContentStream := fun _ _ => .error "b",
    dbQuery := fun _ => .ok [] }

theorem db_unconfigured_nonfatal_witness :
    runSupabaseQuery wEnvNoDb "SELECT 1" = .error dbMissingMsg
    ∧ post wEnvNoDb =
      (.jsonOk "hello" false none (some ⟨"hello", 0, false, none⟩),
       { cacheLookups := 1, genCalls := 2, primaryExecCalls := ["hello"], auxExecCalls := [],
         cacheWrites := [⟨"u1", "hi", "hello", some "hello", 0⟩] })
    ∧ post wEnvNoKey = (.jsonError 500 geminiKeyMsg, ({} : Trace)) :=
  ⟨db_unconfigured_nonfatal.1 wEnvNoDb rfl rfl "SELECT 1",
   db_unconfigured_nonfatal.2.1 wEnvNoDb "u1" "k" "hi" "hello"
     { message := .str "hi", stream := .boolean false }
     rfl rfl rfl rfl rfl rfl (by decide) rfl rfl rfl (fun _ _ => rfl),
   db_unconfigured_nonfatal.2.2 wEnvNoKey "u1" rfl rfl⟩

/-! ### C3: which internal failure paths are fatal -/

/-- Is the outcome a JSON error response? -/
def isErrorResult : ApiResult → Bool
  | .jsonError _ _ => true
  | _ => false

/-- Concrete environment whose generation oracle fails (with a 404-style
message) on every prompt beginning like the SQL-generation prompt and
succeeds on every other prompt. -/
def cEnvSqlGenFail : Env :=
  { user? := some "u1", geminiApiKey? := some "k", databaseUrl? := some "db",
    bodyResult := .ok { message := .str "hi", stream := .boolean false },
    dbSchema := "S", systemPrompt := "SYS",
    genContent := fun _ p => if p.data.head? = some 'Y' then .error "404" else .ok "fine",
    genContentStream := fun _ _ => .error "b",
    dbQuery := fun _ => .ok [] }

/-- C3 counterexample: a run in which SQL generation fails on the primary
model and on every alternative model (seven failed attempts), yet the
request ends in a 200-class success rather than a 500-class error — so SQL
generation exhaustion is not a fatal path. -/
theorem fatal_paths_counterexample :
    (("gemini-pro" :: altModels).all fun mo =>
      match cEnvSqlGenFail.genContent mo (sqlGenerationPrompt "S" "hi" "u1") with
      | .error e => e == "404"
      | .ok _ => false) = true
    ∧ isErrorResult (post cEnvSqlGenFail).1 = false
    ∧ (post cEnvSqlGenFail).1 =
        .jsonOk "fine" false none (some ⟨"No SQL generated", 0, false, none⟩)
    ∧ (post cEnvSqlGenFail).2.genCalls = 8 := by
  refine ⟨by decide, by decide, by decide, by decide⟩

/-- C3 amended: of the two model-exhaustion situations, only synthesis
exhaustion is fatal (a 500-class error with the synthesis-exhaustion
message); SQL-generation exhaustion is absorbed and the request degrades to
an advice-only success. -/
theorem fatal_paths_amended :
    (∀ (env : Env) (uid k m e : String) (b : Body),
      env.user? = some uid → env.geminiApiKey? = some k →
      env.bodyResult = .ok b → b.message = .str m → m ≠ "" →
      useStreamingOf b = false → env.cached? = none → b.pageContext = none →
      (∀ mo pr, env.genContent mo pr = .error e) → is404 e = true →
      post env =
        (.jsonError 500 (analysisAllFailMsg ++ e),
         { cacheLookups := 1, genCalls := 14, primaryExecCalls := [], auxExecCalls := [],
           cacheWrites := [] }))
    ∧ (∀ (env : Env) (uid k m r e : String) (b : Body),
      env.user? = some uid → env.geminiApiKey? = some k →
      env.bodyResult = .ok b → b.message = .str m → m ≠ "" →
      useStreamingOf b = false → env.cached? = none →
      b.pageContext = none → b.pageData = none →
      (∀ mo, env.genContent mo (sqlGenerationPrompt env.dbSchema m uid) = .error e) →
      is404 e = true →
      (∀ mo pr, pr ≠ sqlGenerationPrompt env.dbSchema m uid → env.genContent mo pr = .ok r) →
      mkAnalysisPrompt env.systemPrompt m (mkPageContextInfo none none [])
        (mkDataSummary [] (allSQLQueries "" "") env.dbSchema) ≠
        sqlGenerationPrompt env.dbSchema m uid →
      post env =
        (.jsonOk r false none (some ⟨"No SQL generated", 0, false, none⟩),
         { cacheLookups := 1, genCalls := 8, primaryExecCalls := [], auxExecCalls := [],
           cacheWrites := [⟨uid, m, r, none, 0⟩] })) :=
  ⟨post_allgen_failed_shape, post_sqlgen_exhausted_shape⟩

/-- Concrete environment in which every generation attempt fails with a
404-style error. -/
def wEnvAllFail : Env :=
  { user? := some "u1", geminiApiKey? := some "k", databaseUrl? := some "db",
    bodyResult := .ok { message := .str "hi", stream := .boolean false },
    dbSchema := "S", systemPrompt := "SYS",
    genContent := fun _ _ => .error "404",
    genContentStream := fun _ _ => .error "b",
    dbQuery := fun _ => .ok [] }

theorem fatal_paths_amended_witness :
    post wEnvAllFail =
      (.jsonError 500 (analysisAllFailMsg ++ "404"),
       { cacheLookups := 1, genCalls := 14, primaryExecCalls := [], auxExecCalls := [],
         cacheWrites := [] })
    ∧ post wEnvSqlExh =
      (.jsonOk "fine" false none (some ⟨"No SQL generated", 0, false, none⟩),
       { cacheLookups := 1, genCalls := 8, primaryExecCalls := [], auxExecCalls := [],
         cacheWrites := [⟨"u1", "hi", "fine", none, 0⟩] }) :=
  ⟨fatal_paths_amended.1 wEnvAllFail "u1" "k" "hi" "404"
     { message := .str "hi", stream := .boolean false }
     rfl rfl rfl rfl (by decide) rfl rfl rfl (fun _ _ => rfl) (by decide),
   fatal_paths_amended.2 wEnvSqlExh "u1" "k" "hi" "fine" "404"
     { message := .str "hi", stream := .boolean false }
     rfl rfl rfl rfl (by decide) rfl rfl rfl rfl
     (fun _ => by simp [wEnvSqlExh]) (by decide)
     (fun _ pr h => by
       simp only [wEnvSqlExh] at h ⊢
       exact if_neg h)
     (by decide)⟩

/-! ### C1: user scoping of executed SQL -/

/-- Concrete environment whose generator returns a statement with no
`SELECT`, no `WHERE` and no `user_id`. -/
def cEnvScope : Env :=
  { user? := some "u1", geminiApiKey? := some "k", databaseUrl? := some "db",
    bodyResult := .ok { message := .str "hi", stream := .boolean false },
    genContent := fun _ _ => .ok "show tables",
    genContentStream := fun _ _ => .error "b",
    dbQuery := fun _ => .ok [] }

/-- C1 counterexample: a primary statement that mentions neither `select`,
`where` nor `user_id` is passed to the query executor completely unchanged,
so a statement reaching the executor need not contain any predicate (or
even the substring `user_id`) restricting rows to the requesting user. -/
theorem scoping_claim_counterexample :
    (post cEnvScope).2.primaryExecCalls = ["show tables"]
    ∧ strIncludes (lowerStr "show tables") "user_id" = false :=
  ⟨by decide, by decide⟩

/-- A list that embeds `a ++ pat ++ b` contains `pat`. -/
theorem listContainsSub_of_split (pat a b : List Char) :
    listContainsSub pat (a ++ pat ++ b) = true := by
  simp only [listContainsSub, List.any_eq_true]
  refine ⟨a.length, ?_, ?_⟩
  · simp only [List.mem_range, List.length_append]
    omega
  · rw [List.append_assoc, List.drop_left, List.isPrefixOf_iff_prefix]
    exact List.prefix_append _ _

/-- Lower-casing an embedding of the scoping predicate still contains the
lower-cased predicate. -/
theorem lower_contains_scope (A B : List Char) (uid : String) :
    listContainsSub (lowerL ("user_id = '" ++ uid ++ "'").data)
      (lowerL (A ++ ("user_id = '" ++ uid ++ "'").data ++ B)) = true := by
  simp only [lowerL, List.map_append]
  exact listContainsSub_of_split _ _ _

/-- C1 amended: the security rewrite guarantees the scoping predicate only
conditionally.  If the extracted primary SQL (case-insensitively) contains
neither `user_id` nor `where` but contains `select` and a `FROM <table>`
clause, the rewritten text contains `user_id = '<uid>'`; if it contains a
`where` (followed by whitespace) but not the exact predicate text, the
predicate is conjoined onto the first `WHERE`.  Outside these cases (and on
the auxiliary path, which is never rewritten) text reaches the executor
unchanged. -/
theorem scoping_rewrite_amended :
    (∀ (uid q : String) (pre tbl rest : List Char),
      strIncludes (lowerStr q) "user_id" = false →
      strIncludes (lowerStr q) "where" = false →
      strIncludes (lowerStr q) "select" = true →
      fromSplit q.data = some (pre, tbl, rest) →
      strIncludes (lowerStr (ensureUserIdFilter uid q))
        (lowerStr ("user_id = '" ++ uid ++ "'")) = true)
    ∧ (∀ (uid q : String) (pre rest : List Char),
      strIncludes (lowerStr q) "where" = true →
      strIncludes (lowerStr q) ("user_id = '" ++ uid ++ "'") = false →
      whereSplit q.data = some (pre, rest) →
      strIncludes (lowerStr (ensureUserIdFilter uid q))
        (lowerStr ("user_id = '" ++ uid ++ "'")) = true) := by
  constructor
  · intro uid q pre tbl rest h1 h2 h3 h4
    have hbranch : ensureUserIdFilter uid q = ⟨replaceFromFirst uid q.data⟩ := by
      simp [ensureUserIdFilter, h1, h2, h3]
    rw [hbranch]
    have hL : replaceFromFirst uid q.data =
        (pre ++ "FROM ".data ++ tbl ++ " WHERE ".data)
        ++ ("user_id = '" ++ uid ++ "'").data ++ rest := by
      rw [replaceFromFirst, h4]
      simp [List.append_assoc]
    show listContainsSub (lowerL ("user_id = '" ++ uid ++ "'").data) (lowerL _) = true
    rw [hL]
    exact lower_contains_scope _ _ uid
  · intro uid q pre rest h1 h2 h3
    have hbranch : ensureUserIdFilter uid q = ⟨replaceWhereFirst uid q.data⟩ := by
      simp [ensureUserIdFilter, h1, h2]
    rw [hbranch]
    have hL : replaceWhereFirst uid q.data =
        (pre ++ "WHERE ".data)
        ++ ("user_id = '" ++ uid ++ "'").data ++ (" AND ".data ++ rest) := by
      rw [replaceWhereFirst, h3]
      simp [List.append_assoc]
    show listContainsSub (lowerL ("user_id = '" ++ uid ++ "'").data) (lowerL _) = true
    rw [hL]
    exact lower_contains_scope _ _ uid

theorem scoping_rewrite_amended_witness :
    strIncludes (lowerStr (ensureUserIdFilter "u1" "select * from t"))
      (lowerStr ("user_id = '" ++ "u1" ++ "'")) = true
    ∧ strIncludes (lowerStr (ensureUserIdFilter "u1" "select * from t where x = 1"))
      (lowerStr ("user_id = '" ++ "u1" ++ "'")) = true :=
  ⟨scoping_rewrite_amended.1 "u1" "select * from t"
     "select * ".data "t".data [] (by decide) (by decide) (by decide) (by decide),
   scoping_rewrite_amended.2 "u1" "select * from t where x = 1"
     "select * from t ".data "x = 1".data (by decide) (by decide) (by decide)⟩

/-! ### C8: streaming failure handling and channel closure -/

/-- The number of channel closes carried by a streamed outcome. -/
def streamCloses : ApiResult → Option Nat
  | .streamBody _ c => some c
  | _ => none

/-- The buffered synthesis tail never returns a streamed body. -/
theorem bufferedFinish_streamCloses (env : Env) (mn uid msg : String) (p : StageOut)
    (prompt : String) (base : Trace) :
    streamCloses (bufferedFinish env mn uid msg p prompt base).1 = none := by
  unfold bufferedFinish
  split <;> rfl

/-- Every pipeline outcome is either buffered or a stream closed exactly
once. -/
theorem pipeline_streamCloses (env : Env) (uid msg : String) (body : Body) (us : Bool) :
    streamCloses (pipeline env uid msg body us).1 = none ∨
    streamCloses (pipeline env uid msg body us).1 = some 1 := by
  simp only [pipeline]
  split
  · split
    · right
      simp [streamCloses, runStream_closes]
    · left
      exact bufferedFinish_streamCloses ..
  · left
    exact bufferedFinish_streamCloses ..

/-- A mid-stream iterator error makes the loop emit the inline error notice
after the fragments already forwarded and close once, with no cache write. -/
theorem runStream_split (pre : List ChunkEvent) (hm : noIterError pre = true)
    (m : String) (rest : List ChunkEvent) :
    runStream (pre ++ .iterError m :: rest) =
      (emittedTexts pre ++ ["\n\nError: " ++ m], 1, none) := by
  induction pre with
  | nil => rfl
  | cons e r ih =>
    cases e with
    | text s =>
      have hr : noIterError r = true := by simpa [noIterError] using hm
      by_cases hs : s = "" <;>
        simp [runStream, emittedTexts, ih hr, hs]
    | textError =>
      have hr : noIterError r = true := by simpa [noIterError] using hm
      simpa [runStream, emittedTexts] using ih hr
    | iterError mm => simp [noIterError] at hm

/-- C8: (i) if the streaming channel fails before opening, the request
falls back to a buffered success; (ii) if it fails mid-stream, the
fragments already forwarded are followed by the inline error notice and the
channel is closed exactly once, with no cache write; (iii) on every run the
streamed channel, when one is opened at all, is closed exactly once. -/
theorem streaming_behavior :
    (∀ (env : Env) (uid k m r e : String) (b : Body),
      env.user? = some uid → env.geminiApiKey? = some k →
      env.bodyResult = .ok b → b.message = .str m → m ≠ "" →
      useStreamingOf b = true → b.pageContext = none →
      (∀ mo pr, env.genContentStream mo pr = .error e) →
      (∀ mo pr, env.genContent mo pr = .ok r) →
      (∀ q, runQueryOrEmpty env q = []) →
      post env =
        (.jsonOk r false none
          (some ⟨(if ensureUserIdFilter uid (extractPrimarySql r) = "" then "No SQL generated"
                  else ensureUserIdFilter uid (extractPrimarySql r)), 0, false, none⟩),
         { cacheLookups := 0, genCalls := 3,
           primaryExecCalls := [ensureUserIdFilter uid (extractPrimarySql r)],
           auxExecCalls := [],
           cacheWrites := [⟨uid, m, r,
             (if ensureUserIdFilter uid (extractPrimarySql r) = "" then none
              else some (ensureUserIdFilter uid (extractPrimarySql r))), 0⟩] }))
    ∧ (∀ (env : Env) (uid k m emsg : String) (b : Body)
        (pre rest : List ChunkEvent),
      env.user? = some uid → env.geminiApiKey? = some k →
      env.bodyResult = .ok b → b.message = .str m → m ≠ "" →
      useStreamingOf b = true →
      (∀ mo pr, env.genContentStream mo pr = .ok (pre ++ .iterError emsg :: rest)) →
      noIterError pre = true →
      (post env).1 = .streamBody (emittedTexts pre ++ ["\n\nError: " ++ emsg]) 1 ∧
      (post env).2.cacheWrites = [])
    ∧ (∀ env : Env, streamCloses (post env).1 = none ∨
        streamCloses (post env).1 = some 1) := by
  refine ⟨?_, ?_, ?_⟩
  · intro env uid k m r e b hu hk hb hm hm0 hs hpc hstream hg hdb
    have hmsg : ((JsVal.str m).truthy && (JsVal.str m).isString) = true := by
      simp [JsVal.truthy, JsVal.isString, hm0]
    simp only [post, hu, hk, hb, hm, hmsg, Bool.not_true, Bool.false_eq_true, if_false, hs,
      JsVal.asStr]
    simp only [pipeline, pageCtxOf, hpc, primaryStage, genWithFallback, hg, auxStage,
      hstream, bufferedFinish, hdb]
    simp
  · intro env uid k m emsg b pre rest hu hk hb hm hm0 hs hstream hpre
    have hmsg : ((JsVal.str m).truthy && (JsVal.str m).isString) = true := by
      simp [JsVal.truthy, JsVal.isString, hm0]
    simp only [post, hu, hk, hb, hm, hmsg, Bool.not_true, Bool.false_eq_true, if_false, hs,
      JsVal.asStr]
    simp only [pipeline, hstream, runStream_split pre hpre emsg rest]
    simp
  · intro env
    simp only [post]
    split
    · left
      rfl
    split
    · left
      rfl
    split
    · left
      rfl
    split
    · left
      rfl
    split
    · split
      · left
        rfl
      · exact pipeline_streamCloses ..
    · exact pipeline_streamCloses ..

/-- Concrete environment whose streaming channel fails before opening. -/
def wEnvStreamFail : Env :=
  { user? := some "u1", geminiApiKey? := some "k", databaseUrl? := some "db",
    bodyResult := .ok { message := .str "hi" },
    genContent := fun _ _ => .ok "hello",
    genContentStream := fun _ _ => .error "boom",
    dbQuery := fun _ => .ok [] }

/-- Concrete environment whose streaming channel fails mid-stream. -/
def wEnvStreamMid : Env :=
  { user? := some "u1", geminiApiKey? := some "k", databaseUrl? := some "db",
    bodyResult := .ok { message := .str "hi" },
    genContent := fun _ _ => .ok "hello",
    genContentStream := fun _ _ =>
      .ok [.text "a", .text "", .textError, .iterError "mid"],
    dbQuery := fun _ => .ok [] }

theorem streaming_behavior_witness :
    post wEnvStreamFail =
      (.jsonOk "hello" false none (some ⟨"hello", 0, false, none⟩),
       { cacheLookups := 0, genCalls := 3, primaryExecCalls := ["hello"], auxExecCalls := [],
         cacheWrites := [⟨"u1", "hi", "hello", some "hello", 0⟩] })
    ∧ (post wEnvStreamMid).1 = .streamBody ["a", "\n\nError: mid"] 1
    ∧ (post wEnvStreamMid).2.cacheWrites = []
    ∧ (streamCloses (post wEnvStreamMid).1 = none ∨
       streamCloses (post wEnvStreamMid).1 = some 1) :=
  ⟨streaming_behavior.1 wEnvStreamFail "u1" "k" "hi" "hello" "boom"
     { message := .str "hi" }
     rfl rfl rfl rfl (by decide) rfl rfl (fun _ _ => rfl) (fun _ _ => rfl) (fun _ => rfl),
   (streaming_behavior.2.1 wEnvStreamMid "u1" "k" "hi" "mid"
     { message := .str "hi" } [.text "a", .text "", .textError] []
     rfl rfl rfl rfl (by decide) rfl (fun _ _ => rfl) rfl).1,
   (streaming_behavior.2.1 wEnvStreamMid "u1" "k" "hi" "mid"
     { message := .str "hi" } [.text "a", .text "", .textError] []
     rfl rfl rfl rfl (by decide) rfl (fun _ _ => rfl) rfl).2,
   streaming_behavior.2.2 wEnvStreamMid⟩

end Coach
